import Mathlib

/-!
Verification of the AI-Image-Story-Generator front end.

The repository is a TypeScript single-page application.  This file gives a
shallow embedding of the parts of the code that the specification talks
about:

* the image compositor `expandImage` in the gemini service module
  (canvas geometry for aspect-ratio expansion), modelled over exact
  rational arithmetic with `round` standing for `Math.round`;
* the data-URL parser `parseDataUrl` (first component of `split(',')`
  followed by the lazy regex `:(.*?);` with the JS dot that does not match
  line terminators);
* the request-count policy of `generateFromText` and `handleGenerate`;
* the session-state handlers of `App.tsx` (`handleGenerate`,
  `handleSetReference`, `handleDescribe`, `handleCaption`,
  `handleRemoveText`, `handleExpandImage` and their `...Ref1` variants,
  `handleEnhancePrompt`, `handleConcept`), modelled as pure state
  transformers parameterised by the backend outcome
  (`Except String _` in place of a resolved or rejected promise);
* the instruction templates of the gemini service module.

All handlers return a `HandlerRun` record carrying the settled state, the
number of backend dispatches and whether an in-flight tag was set, so that
precondition, in-flight and error-folding behaviour can be stated.
-/

namespace ImageStory

/-! ## Image compositor (`expandImage`, geminiService lines 156-206)

`expandImage` reads the intrinsic size of the source image, parses the
target ratio string `"W:H"`, and builds a canvas:

```
if (targetRatio > originalRatio) {
    canvas.height = originalHeight;
    canvas.width = Math.round(originalHeight * targetRatio);
    xOffset = (canvas.width - originalWidth) / 2; yOffset = 0;
} else {
    canvas.width = originalWidth;
    canvas.height = Math.round(originalWidth / targetRatio);
    xOffset = 0; yOffset = (canvas.height - originalHeight) / 2;
}
```

JS numbers are modelled by exact rationals; `Math.round` (round half
towards positive infinity) is Mathlib `round` on `ℚ`. -/

/-- Canvas geometry computed by `expandImage` before drawing. -/
structure ExpandCanvas where
  width : ℤ
  height : ℤ
  xOffset : ℚ
  yOffset : ℚ
deriving Repr, DecidableEq

/-- The canvas geometry of `expandImage` for a source of intrinsic size
`originalWidth × originalHeight` and a target ratio string `"targetW:targetH"`
(already split into its two numeric components). -/
def expandImageCanvas (originalWidth originalHeight targetW targetH : ℕ) : ExpandCanvas :=
  let originalRatio : ℚ := (originalWidth : ℚ) / (originalHeight : ℚ)
  let targetRatio : ℚ := (targetW : ℚ) / (targetH : ℚ)
  if targetRatio > originalRatio then
    let height : ℤ := originalHeight
    let width : ℤ := round ((originalHeight : ℚ) * targetRatio)
    { width := width, height := height
      xOffset := ((width : ℚ) - (originalWidth : ℚ)) / 2, yOffset := 0 }
  else
    let width : ℤ := originalWidth
    let height : ℤ := round ((originalWidth : ℚ) / targetRatio)
    { width := width, height := height
      xOffset := 0, yOffset := ((height : ℚ) - (originalHeight : ℚ)) / 2 }

/-! ## String helpers

`strIncludes` models `String.prototype.includes` (contiguous substring
test); `headerOf` models the first component of `dataUrl.split(',')`. -/

/-- JS `s.trim()`: strip leading and trailing whitespace. -/
def strTrim (s : String) : String :=
  String.mk (((s.data.dropWhile Char.isWhitespace).reverse.dropWhile
    Char.isWhitespace).reverse)

/-- JS `s.startsWith(pat)`. -/
def strStartsWith (s pat : String) : Bool :=
  pat.data.isPrefixOf s.data

/-- `pat` occurs as a contiguous sublist of `l` (JS `includes`). -/
def containsSub (l pat : List Char) : Bool :=
  (List.range (l.length + 1)).any fun i => pat.isPrefixOf (l.drop i)

/-- JS `s.includes(pat)`. -/
def strIncludes (s pat : String) : Bool :=
  containsSub s.data pat.data

/-! ## Data URL codec (`parseDataUrl`, geminiService lines 28-32)

```
const [header, data] = dataUrl.split(',');
const mimeType = header.match(/:(.*?);/)?.[1] ?? "image/png";
```

`header` is the part of the input before the first comma (the whole input
when there is no comma).  The regex `:(.*?);` finds, scanning left to
right, the first `:` that is followed by a `;` with no line terminator in
between (the JS dot does not match line terminators), and captures the
characters between that `:` and the nearest such `;`. -/

/-- A character the JS dot does not match (line terminators). -/
def jsLineTerm (c : Char) : Bool :=
  c == '\n' || c == '\r' || c.toNat == 0x2028 || c.toNat == 0x2029

/-- The lazy tail of the regex: consume non-terminator characters up to the
first `;`, returning the captured characters, or fail. -/
def takeToSemi : List Char → Option (List Char)
  | [] => none
  | c :: rest =>
    if c = ';' then some []
    else if jsLineTerm c then none
    else (takeToSemi rest).map fun cap => c :: cap

/-- Leftmost match of `:(.*?);` — the capture group, when a match exists. -/
def regexFirst : List Char → Option (List Char)
  | [] => none
  | c :: rest =>
    if c = ':' then
      match takeToSemi rest with
      | some cap => some cap
      | none => regexFirst rest
    else regexFirst rest

/-- The substring of `s` before the first comma — `s.split(',')[0]`. -/
def headerOf (s : String) : List Char :=
  s.data.takeWhile fun c => ¬ c = ','

/-- The `mimeType` component of `parseDataUrl`. -/
def parseDataUrlMime (s : String) : String :=
  match regexFirst (headerOf s) with
  | some cap => String.mk cap
  | none => "image/png"

/-- Modelled from the claim wording, for comparison with the code: the media
type is extracted from a `:<type>;` token of the header when present, and
the fallback `image/png` is used for any malformed header — where the claim
counts an input without the `<header>,<payload>` comma shape as malformed. -/
def parseDataUrlMimeClaim (s : String) : String :=
  if s.data.contains ',' then
    match regexFirst (headerOf s) with
    | some cap => String.mk cap
    | none => "image/png"
  else "image/png"

/-- A well-formed `:<cap>;` token occurs in `l` with capture `cap`: the
capture contains no `;` and no line terminator. -/
def tokenAt (l cap : List Char) : Prop :=
  (∃ pre post, l = pre ++ ':' :: (cap ++ ';' :: post)) ∧
    ∀ ch ∈ cap, ¬ ch = ';' ∧ jsLineTerm ch = false

/-! ## Backend gateway (geminiService)

Network calls are modelled as request descriptions; the backend outcome is
passed to the handlers as an `Except String _` value standing for the
resolved or rejected promise. -/

/-- A generation request dispatched to the backend. -/
inductive GenRequest where
  /-- `generateFromImageAndText`: reference images plus prompt, multimodal image model. -/
  | imageAndText (prompt : String) (referenceImages : List String)
  /-- `generateImages` on the batch model with `numberOfImages`. -/
  | imagenBatch (fullPrompt : String) (numberOfImages : Nat) (aspectRatio : String)
  /-- `generateContent` on a gemini image model (single generation). -/
  | geminiImage (fullPrompt : String) (aspectRatio : String)
deriving Repr, DecidableEq

/-- How many images a request asks the backend for: the batch request carries
its `numberOfImages`, the other calls are single generations. -/
def GenRequest.requestedImages : GenRequest → Nat
  | .imageAndText _ _ => 1
  | .imagenBatch _ n _ => n
  | .geminiImage _ _ => 1

/-- `generateFromText` (geminiService lines 34-79): routes on the model key,
prepending the per-style prefix to the prompt.  `stylePrefixes` abstracts the
`STYLE_PROMPT_PREFIXES` table of the constants module (that module is not
among the sources; only the table lookup is used here).  An unknown model
yields the `Unsupported model` rejection. -/
def generateFromText (stylePrefixes : String → String)
    (prompt : String) (count : Nat) (aspectRatio style model : String) :
    Except String GenRequest :=
  let fullPrompt := stylePrefixes style ++ " " ++ prompt
  if model == "imagen-4.0-generate-001" then
    .ok (.imagenBatch fullPrompt count aspectRatio)
  else if strIncludes model "gemini" || strIncludes model "flash" ||
      strIncludes model "pro" then
    .ok (.geminiImage fullPrompt aspectRatio)
  else
    .error ("Unsupported model: " ++ model)

/-- `generateFromImageAndText` (geminiService lines 81-106): always one
multimodal call carrying every reference image and the prompt. -/
def generateFromImageAndText (prompt : String) (referenceImages : List String) :
    GenRequest :=
  .imageAndText prompt referenceImages

/-- `suggestCaption` (geminiService lines 123-136): the instruction text of
the request.  The function signature is `(imageSrc, model)` — it has no
length parameter, and the instruction is this fixed string. -/
def suggestCaptionInstruction : String :=
  "Suggest a short, witty, and engaging caption for this image suitable for social media. Respond with only the caption text."

/-- `generateStoryCaption` (geminiService lines 228-237): the instruction
text of the request.  The signature is `(story, model, language)`; the length
bound is the hard-coded `Max 60 chars.`. -/
def generateStoryCaptionPrompt (story language : String) : String :=
  let lang := if language == "Thai" then "Thai" else "English"
  "Summarize this story in ONE short sentence in " ++ lang ++
    ". Max 60 chars.\nStory: " ++ story

/-- `App.handleCaption` (App.tsx line 202) and `handleCaptionRef1` (line 290)
invoke `suggestCaption(imageSrc, reasoningModel, maxCaptionLength)`.  The
gateway signature declares only two parameters, so at run time the third
argument is dropped and the instruction sent is the fixed one. -/
def captionInstructionSent (maxCaptionLength : Nat) : String :=
  suggestCaptionInstruction

/-- `StoryWriter` (lines 131, 149, 170) invokes
`generateStoryCaption(story, model, language, maxCaptionLength)`.  The
gateway signature declares only three parameters, so the fourth argument is
dropped. -/
def storyCaptionPromptSent (story language : String) (maxCaptionLength : Nat) : String :=
  generateStoryCaptionPrompt story language

/-- The distinguished credential message of `handleGenerate` (App.tsx 129). -/
def invalidKeyMessage : String :=
  "Invalid API Key. Please update the key in the field above."

/-- The catch-block classification of `handleGenerate` (App.tsx 125-140):
credential-looking backend messages are replaced by the distinguished
message, everything else is surfaced verbatim. -/
def generateErrorFold (msg : String) : String :=
  if strIncludes msg "Requested entity was not found" ||
      strIncludes msg "API_KEY_INVALID" then
    invalidKeyMessage
  else msg

/-- `isGeminiModel` of `handleGenerate` (App.tsx 113). -/
def isGeminiImageModel (model : String) : Bool :=
  model == "gemini-2.5-flash-image" || model == "gemini-3-pro-image-preview"

/-! ## Orchestration core (App.tsx session state and handlers)

The React state hooks are collected in one record; each handler becomes a
pure function from the pre-state and the backend outcome to a `HandlerRun`:
the settled post-state, the number of backend dispatches, and whether the
handler marked itself in-flight. -/

/-- The session state of `App` (the `useState` hooks of App.tsx 31-46). -/
structure AppState where
  prompt : String
  aspectRatio : String
  style : String
  imageModel : String
  reasoningModel : String
  maxCaptionLength : Nat
  images : List String
  referenceImages : List String
  loading : Bool
  error : Option String
  loadingCount : Nat
  processingAction : Option String
  promptActionLoading : Option String
deriving Repr, DecidableEq

/-- A settled handler invocation. -/
structure HandlerRun where
  finalState : AppState
  networkCalls : Nat
  tagSet : Bool
deriving Repr, DecidableEq

/-- A settled `handleGenerate` invocation, carrying the dispatched request. -/
structure GenRun where
  finalState : AppState
  request : Option GenRequest
  tagSet : Bool
deriving Repr, DecidableEq

/-- `handleGenerate` (App.tsx 92-145).  `hasKey` models the
localStorage/env check of line 98, `aistudioOk` whether the credential-broker
interaction of lines 100-107 succeeds (it matters only for the gated pro
model without a key), and `backend` the outcome of the dispatched call. -/
def handleGenerate (stylePrefixes : String → String) (s : AppState) (count : Nat)
    (hasKey aistudioOk : Bool) (backend : Except String (List String)) : GenRun :=
  if strTrim s.prompt == "" then
    { finalState := { s with error := some "Please enter a prompt." }
      request := none, tagSet := false }
  else if !hasKey && s.imageModel == "gemini-3-pro-image-preview" && !aistudioOk then
    { finalState :=
        { s with error := some "API Key is required. Please set it in the field above." }
      request := none, tagSet := false }
  else
    let effectiveCount :=
      if s.referenceImages.length > 0 || isGeminiImageModel s.imageModel then 1 else count
    let req : Except String GenRequest :=
      if s.referenceImages.length > 0 then
        .ok (generateFromImageAndText s.prompt s.referenceImages)
      else
        generateFromText stylePrefixes s.prompt effectiveCount s.aspectRatio s.style
          s.imageModel
    let outcome : Except String (List String) :=
      match req with
      | .error msg => .error msg
      | .ok _ => backend
    let s1 := { s with loading := true, error := none, images := []
                       loadingCount := effectiveCount }
    let s2 :=
      match outcome with
      | .ok imgs => { s1 with images := imgs }
      | .error msg => { s1 with error := some (generateErrorFold msg) }
    { finalState := { s2 with loading := false, loadingCount := 0 }
      request := req.toOption, tagSet := true }

/-- `handleSetReference` (App.tsx 147-153). -/
def handleSetReference (s : AppState) (imageSrc : String) : AppState :=
  if s.referenceImages.length < 4 then
    { s with referenceImages := s.referenceImages ++ [imageSrc] }
  else
    { s with error := some "You can only have a maximum of 4 reference images." }

/-- `handleRemoveReference` (App.tsx 155-157): keep the entries whose
position differs from the removed index. -/
def handleRemoveReference (s : AppState) (indexToRemove : Nat) : AppState :=
  { s with referenceImages :=
      (s.referenceImages.enum.filter fun p => ¬ p.1 = indexToRemove).map fun p => p.2 }

/-- `handleUploadReference` (App.tsx 159-170): non-image files are rejected,
a failed read reports a read error, otherwise the data URL is appended via
`handleSetReference`. -/
def handleUploadReference (s : AppState) (fileType : String)
    (readResult : Except String String) : AppState :=
  if !(strStartsWith fileType "image/") then
    { s with error := some "Please upload a valid image file." }
  else
    match readResult with
    | .ok base64 => handleSetReference s base64
    | .error _ => { s with error := some "Failed to read the image file." }

/-- The Thai character class `[ก-ฮ]` of the caption handlers
(App.tsx 204, 292): code points U+0E01 to U+0E2E. -/
def isThaiChar (c : Char) : Bool :=
  0x0E01 ≤ c.toNat && c.toNat ≤ 0x0E2E

/-- `/[ก-ฮ]/.test(caption)`. -/
def hasThai (caption : String) : Bool :=
  caption.data.any isThaiChar

/-- The caption-driven prompt template of `handleCaption` and
`handleCaptionRef1` (App.tsx 204-206, 292-294). -/
def captionPrompt (caption : String) : String :=
  let textType := if hasThai caption then "Thai text" else "text"
  "Recreate the image in [ref-1], but add the following " ++ textType ++
    " as a caption: \"" ++ caption ++ "\". The " ++ textType ++
    " should be elegantly placed in a suitable position, using a beautiful font with a color that is easily readable against the background. Do not obscure important details like faces or key subjects. The " ++
    textType ++
    " MUST be clear and readable, using the exact characters provided without translation."

/-- The fixed remove-text instruction (App.tsx 217, 309). -/
def removeTextPrompt : String :=
  "Analyze the image provided in [ref-1] and remove all text, words, characters and logos. Reconstruct the areas where the text was removed to look natural and seamless with the rest of the image."

/-- `handleDescribe` (App.tsx 185-196). -/
def handleDescribe (s : AppState) (index : Nat)
    (backend : Except String String) : HandlerRun :=
  let s1 := { s with processingAction := some ("describe-" ++ toString index)
                     error := none }
  let s2 :=
    match backend with
    | .ok description => { s1 with prompt := description }
    | .error msg => { s1 with error := some msg }
  { finalState := { s2 with processingAction := none }, networkCalls := 1, tagSet := true }

/-- `handleCaption` (App.tsx 198-212). -/
def handleCaption (s : AppState) (imageSrc : String) (index : Nat)
    (backend : Except String String) : HandlerRun :=
  let s1 := { s with processingAction := some ("caption-" ++ toString index)
                     error := none }
  let s2 :=
    match backend with
    | .ok caption =>
        { s1 with referenceImages := [imageSrc], prompt := captionPrompt caption }
    | .error msg => { s1 with error := some msg }
  { finalState := { s2 with processingAction := none }, networkCalls := 1, tagSet := true }

/-- `handleRemoveText` (App.tsx 214-234). -/
def handleRemoveText (s : AppState) (imageSrc : String) (index : Nat)
    (backend : Except String (List String)) : HandlerRun :=
  let s1 := { s with processingAction := some ("remove-text-" ++ toString index)
                     error := none, prompt := removeTextPrompt
                     referenceImages := [imageSrc], loading := true
                     images := [], loadingCount := 1 }
  let s2 :=
    match backend with
    | .ok imgs => { s1 with images := imgs }
    | .error msg => { s1 with error := some msg }
  { finalState := { s2 with loading := false, loadingCount := 0, processingAction := none }
    networkCalls := 1, tagSet := true }

/-- `handleExpandImage` (App.tsx 236-254): the target ratio is installed
before dispatch and the finally block resets the selector to the constant
`16:9`. -/
def handleExpandImage (s : AppState) (index : Nat) (targetAspectRatio : String)
    (backend : Except String (List String)) : HandlerRun :=
  let s1 := { s with processingAction := some ("expand-" ++ toString index)
                     loading := true, error := none, images := []
                     loadingCount := 1, aspectRatio := targetAspectRatio }
  let s2 :=
    match backend with
    | .ok imgs => { s1 with images := imgs }
    | .error msg => { s1 with error := some msg }
  { finalState := { s2 with loading := false, loadingCount := 0
                            processingAction := none, aspectRatio := "16:9" }
    networkCalls := 1, tagSet := true }

/-- `handleDescribeRef1` (App.tsx 265-280). -/
def handleDescribeRef1 (s : AppState) (backend : Except String String) : HandlerRun :=
  if s.referenceImages.length = 0 then
    { finalState := { s with error := some "No reference image available to describe." }
      networkCalls := 0, tagSet := false }
  else
    let s1 := { s with promptActionLoading := some "describe-ref-1", error := none }
    let s2 :=
      match backend with
      | .ok description => { s1 with prompt := description }
      | .error msg => { s1 with error := some msg }
    { finalState := { s2 with promptActionLoading := none }
      networkCalls := 1, tagSet := true }

/-- `handleCaptionRef1` (App.tsx 282-300). -/
def handleCaptionRef1 (s : AppState) (backend : Except String String) : HandlerRun :=
  if s.referenceImages.length = 0 then
    { finalState := { s with error := some "No reference image available to caption." }
      networkCalls := 0, tagSet := false }
  else
    let s1 := { s with promptActionLoading := some "caption-ref-1", error := none }
    let s2 :=
      match backend with
      | .ok caption =>
          { s1 with referenceImages := [s.referenceImages.headD ""]
                    prompt := captionPrompt caption }
      | .error msg => { s1 with error := some msg }
    { finalState := { s2 with promptActionLoading := none }
      networkCalls := 1, tagSet := true }

/-- `handleRemoveTextRef1` (App.tsx 302-326). -/
def handleRemoveTextRef1 (s : AppState)
    (backend : Except String (List String)) : HandlerRun :=
  if s.referenceImages.length = 0 then
    { finalState := { s with error := some "No reference image available to process." }
      networkCalls := 0, tagSet := false }
  else
    let s1 := { s with promptActionLoading := some "remove-text-ref-1", error := none
                       prompt := removeTextPrompt
                       referenceImages := [s.referenceImages.headD ""]
                       loading := true, images := [], loadingCount := 1 }
    let s2 :=
      match backend with
      | .ok imgs => { s1 with images := imgs }
      | .error msg => { s1 with error := some msg }
    { finalState := { s2 with loading := false, loadingCount := 0
                              promptActionLoading := none }
      networkCalls := 1, tagSet := true }

/-- `handleExpandRef1` (App.tsx 328-350). -/
def handleExpandRef1 (s : AppState) (targetAspectRatio : String)
    (backend : Except String (List String)) : HandlerRun :=
  if s.referenceImages.length = 0 then
    { finalState := { s with error := some "No reference image available to expand." }
      networkCalls := 0, tagSet := false }
  else
    let s1 := { s with promptActionLoading := some "expand-ref-1", loading := true
                       error := none, images := [], loadingCount := 1
                       aspectRatio := targetAspectRatio }
    let s2 :=
      match backend with
      | .ok imgs => { s1 with images := imgs }
      | .error msg => { s1 with error := some msg }
    { finalState := { s2 with loading := false, loadingCount := 0
                              promptActionLoading := none, aspectRatio := "16:9" }
      networkCalls := 1, tagSet := true }

/-- `handleEnhancePrompt` (App.tsx 352-367). -/
def handleEnhancePrompt (s : AppState) (backend : Except String String) : HandlerRun :=
  if strTrim s.prompt == "" then
    { finalState := { s with error := some "Prompt is empty, nothing to enhance." }
      networkCalls := 0, tagSet := false }
  else
    let s1 := { s with promptActionLoading := some "enhance", error := none }
    let s2 :=
      match backend with
      | .ok enhanced => { s1 with prompt := enhanced }
      | .error msg => { s1 with error := some msg }
    { finalState := { s2 with promptActionLoading := none }
      networkCalls := 1, tagSet := true }

/-- `handleConcept` (App.tsx 369-384). -/
def handleConcept (s : AppState) (backend : Except String String) : HandlerRun :=
  if strTrim s.prompt == "" then
    { finalState := { s with error := some "Prompt is empty, cannot generate concept." }
      networkCalls := 0, tagSet := false }
  else
    let s1 := { s with promptActionLoading := some "concept", error := none }
    let s2 :=
      match backend with
      | .ok concept => { s1 with prompt := concept }
      | .error msg => { s1 with error := some msg }
    { finalState := { s2 with promptActionLoading := none }
      networkCalls := 1, tagSet := true }

/-- A concrete session state: batch model selected, one reference image. -/
def sampleState : AppState :=
  { prompt := "a cat", aspectRatio := "16:9", style := "photorealistic",
    imageModel := "imagen-4.0-generate-001",
    reasoningModel := "gemini-3-flash-preview", maxCaptionLength := 60,
    images := [], referenceImages := ["data:image/png;base64,AAA"],
    loading := false, error := none, loadingCount := 0, processingAction := none,
    promptActionLoading := none }

/-- A concrete session state with a blank prompt and no reference images. -/
def blankState : AppState :=
  { sampleState with prompt := " ", referenceImages := [] }

/-! ## Theorems -/

/-- Helper: an integer lower bound is preserved by `round`. -/
theorem le_round_of_le {z : ℤ} {x : ℚ} (h : (z : ℚ) ≤ x) : z ≤ round x := by
  rw [round_eq]
  refine le_trans (Int.le_floor.mpr h) (Int.floor_le_floor ?_)
  linarith

/-- C1: for every source image of intrinsic width `W0` and height `H0` and
every target ratio `W:H`, the compositor canvas follows the spec algorithm —
wider target: height kept, width `round(H0 * W/H)`, horizontal centring;
otherwise: width kept, height `round(W0 / (W/H))`, vertical centring — the
output ratio matches `W/H` within rounding, and the source rectangle lies
fully inside the canvas, centred on the padded axis. -/
theorem expandImage_canvas_follows_spec (W0 H0 tW tH : ℕ)
    (hW0 : 0 < W0) (hH0 : 0 < H0) (htW : 0 < tW) (htH : 0 < tH) :
    (((tW : ℚ) / (tH : ℚ) > (W0 : ℚ) / (H0 : ℚ)) →
        (expandImageCanvas W0 H0 tW tH).height = H0 ∧
        (expandImageCanvas W0 H0 tW tH).width =
          round ((H0 : ℚ) * ((tW : ℚ) / (tH : ℚ))) ∧
        (expandImageCanvas W0 H0 tW tH).xOffset =
          (((expandImageCanvas W0 H0 tW tH).width : ℚ) - (W0 : ℚ)) / 2 ∧
        (expandImageCanvas W0 H0 tW tH).yOffset = 0 ∧
        |((expandImageCanvas W0 H0 tW tH).width : ℚ) -
          ((expandImageCanvas W0 H0 tW tH).height : ℚ) * ((tW : ℚ) / (tH : ℚ))| ≤ 1 / 2) ∧
    ((¬ ((tW : ℚ) / (tH : ℚ) > (W0 : ℚ) / (H0 : ℚ))) →
        (expandImageCanvas W0 H0 tW tH).width = W0 ∧
        (expandImageCanvas W0 H0 tW tH).height =
          round ((W0 : ℚ) / ((tW : ℚ) / (tH : ℚ))) ∧
        (expandImageCanvas W0 H0 tW tH).yOffset =
          (((expandImageCanvas W0 H0 tW tH).height : ℚ) - (H0 : ℚ)) / 2 ∧
        (expandImageCanvas W0 H0 tW tH).xOffset = 0 ∧
        |((expandImageCanvas W0 H0 tW tH).height : ℚ) -
          ((expandImageCanvas W0 H0 tW tH).width : ℚ) / ((tW : ℚ) / (tH : ℚ))| ≤ 1 / 2) ∧
    0 ≤ (expandImageCanvas W0 H0 tW tH).xOffset ∧
    (expandImageCanvas W0 H0 tW tH).xOffset + (W0 : ℚ) ≤
      ((expandImageCanvas W0 H0 tW tH).width : ℚ) ∧
    0 ≤ (expandImageCanvas W0 H0 tW tH).yOffset ∧
    (expandImageCanvas W0 H0 tW tH).yOffset + (H0 : ℚ) ≤
      ((expandImageCanvas W0 H0 tW tH).height : ℚ) ∧
    (expandImageCanvas W0 H0 tW tH).xOffset =
      ((expandImageCanvas W0 H0 tW tH).width : ℚ) -
        ((expandImageCanvas W0 H0 tW tH).xOffset + (W0 : ℚ)) ∧
    (expandImageCanvas W0 H0 tW tH).yOffset =
      ((expandImageCanvas W0 H0 tW tH).height : ℚ) -
        ((expandImageCanvas W0 H0 tW tH).yOffset + (H0 : ℚ)) := by
  have hW0Q : (0 : ℚ) < (W0 : ℚ) := by exact_mod_cast hW0
  have hH0Q : (0 : ℚ) < (H0 : ℚ) := by exact_mod_cast hH0
  have htWQ : (0 : ℚ) < (tW : ℚ) := by exact_mod_cast htW
  have htHQ : (0 : ℚ) < (tH : ℚ) := by exact_mod_cast htH
  have hrpos : (0 : ℚ) < (tW : ℚ) / (tH : ℚ) := by positivity
  by_cases h : (tW : ℚ) / (tH : ℚ) > (W0 : ℚ) / (H0 : ℚ)
  · -- wider target: pad horizontally
    have hg : expandImageCanvas W0 H0 tW tH =
        { width := round ((H0 : ℚ) * ((tW : ℚ) / (tH : ℚ))), height := (H0 : ℤ)
          xOffset := ((round ((H0 : ℚ) * ((tW : ℚ) / (tH : ℚ))) : ℚ) - (W0 : ℚ)) / 2
          yOffset := 0 } := by
      simp only [expandImageCanvas, if_pos h]
    have hWle : (W0 : ℚ) ≤ (H0 : ℚ) * ((tW : ℚ) / (tH : ℚ)) := by
      have h2 : (W0 : ℚ) * (tH : ℚ) < (tW : ℚ) * (H0 : ℚ) :=
        (div_lt_div_iff₀ hH0Q htHQ).mp h
      rw [← mul_div_assoc, le_div_iff₀ htHQ]
      nlinarith
    have hround : ((W0 : ℤ) : ℤ) ≤ round ((H0 : ℚ) * ((tW : ℚ) / (tH : ℚ))) := by
      refine le_round_of_le ?_
      exact_mod_cast hWle
    have hroundQ : (W0 : ℚ) ≤ ((round ((H0 : ℚ) * ((tW : ℚ) / (tH : ℚ)))) : ℚ) := by
      exact_mod_cast hround
    have habs : |((round ((H0 : ℚ) * ((tW : ℚ) / (tH : ℚ)))) : ℚ) -
        (H0 : ℚ) * ((tW : ℚ) / (tH : ℚ))| ≤ 1 / 2 := by
      rw [abs_sub_comm]
      exact abs_sub_round _
    rw [hg]
    refine ⟨fun _ => ⟨rfl, rfl, rfl, rfl, by push_cast; exact habs⟩,
      fun hc => absurd h hc, ?_, ?_, le_refl 0, ?_, by ring, by push_cast; ring⟩
    · simp only
      linarith
    · simp only
      linarith
    · simp only
      push_cast
      linarith
  · -- taller (or equal) target: pad vertically
    have hg : expandImageCanvas W0 H0 tW tH =
        { width := (W0 : ℤ), height := round ((W0 : ℚ) / ((tW : ℚ) / (tH : ℚ)))
          xOffset := 0
          yOffset := ((round ((W0 : ℚ) / ((tW : ℚ) / (tH : ℚ))) : ℚ) - (H0 : ℚ)) / 2 } := by
      simp only [expandImageCanvas, if_neg h]
    have hle : (tW : ℚ) / (tH : ℚ) ≤ (W0 : ℚ) / (H0 : ℚ) := not_lt.mp h
    have hHle : (H0 : ℚ) ≤ (W0 : ℚ) / ((tW : ℚ) / (tH : ℚ)) := by
      rw [le_div_iff₀ hrpos]
      calc (H0 : ℚ) * ((tW : ℚ) / (tH : ℚ)) ≤ (H0 : ℚ) * ((W0 : ℚ) / (H0 : ℚ)) := by
            exact mul_le_mul_of_nonneg_left hle (le_of_lt hH0Q)
        _ = (W0 : ℚ) := by field_simp
    have hround : ((H0 : ℤ) : ℤ) ≤ round ((W0 : ℚ) / ((tW : ℚ) / (tH : ℚ))) := by
      refine le_round_of_le ?_
      exact_mod_cast hHle
    have hroundQ : (H0 : ℚ) ≤ ((round ((W0 : ℚ) / ((tW : ℚ) / (tH : ℚ)))) : ℚ) := by
      exact_mod_cast hround
    have habs : |((round ((W0 : ℚ) / ((tW : ℚ) / (tH : ℚ)))) : ℚ) -
        (W0 : ℚ) / ((tW : ℚ) / (tH : ℚ))| ≤ 1 / 2 := by
      rw [abs_sub_comm]
      exact abs_sub_round _
    rw [hg]
    refine ⟨fun hc => absurd hc h,
      fun _ => ⟨rfl, rfl, rfl, rfl, by push_cast; exact habs⟩,
      le_refl 0, ?_, ?_, ?_, by push_cast; ring, by ring⟩
    · simp only
      push_cast
      linarith
    · simp only
      linarith
    · simp only
      linarith

/-- C1 witness: a 50×100 source expanded to 2:1 gets a 200×100 canvas with
the source centred horizontally. -/
theorem expandImage_canvas_follows_spec_witness :
    (expandImageCanvas 50 100 2 1).width = 200 ∧
    (expandImageCanvas 50 100 2 1).height = 100 ∧
    0 ≤ (expandImageCanvas 50 100 2 1).xOffset ∧
    (expandImageCanvas 50 100 2 1).xOffset + (50 : ℚ) ≤
      ((expandImageCanvas 50 100 2 1).width : ℚ) := by
  have hcond : ((2 : ℕ) : ℚ) / ((1 : ℕ) : ℚ) > ((50 : ℕ) : ℚ) / ((100 : ℕ) : ℚ) := by
    norm_num
  have hmain := expandImage_canvas_follows_spec 50 100 2 1
    (by decide) (by decide) (by decide) (by decide)
  have hb := hmain.1 hcond
  have hw : (expandImageCanvas 50 100 2 1).width = 200 := by
    rw [hb.2.1]
    norm_num
  have hh : (expandImageCanvas 50 100 2 1).height = 100 := hb.1
  exact ⟨hw, hh, hmain.2.2.1, hmain.2.2.2.1⟩

theorem takeToSemi_sound {l cap : List Char} (h : takeToSemi l = some cap) :
    (∃ post, l = cap ++ ';' :: post) ∧
      ∀ ch ∈ cap, ¬ ch = ';' ∧ jsLineTerm ch = false := by
  induction l generalizing cap with
  | nil => simp [takeToSemi] at h
  | cons c rest ih =>
    by_cases hc : c = ';'
    · subst hc
      have h2 : cap = [] := by
        have : some ([] : List Char) = some cap := by simpa [takeToSemi] using h
        exact (Option.some.inj this).symm
      subst h2
      exact ⟨⟨rest, rfl⟩, by simp⟩
    · cases ht : jsLineTerm c with
      | true => simp [takeToSemi, hc, ht] at h
      | false =>
        simp only [takeToSemi, if_neg hc, ht, Bool.false_eq_true, if_false,
          Option.map_eq_some'] at h
        obtain ⟨cap', hcap', rfl⟩ := h
        obtain ⟨⟨post, hpost⟩, hall⟩ := ih hcap'
        refine ⟨⟨post, by simp [hpost]⟩, ?_⟩
        intro ch hch
        rcases List.mem_cons.mp hch with h1 | h1
        · subst h1
          exact ⟨hc, ht⟩
        · exact hall ch h1

theorem takeToSemi_complete {cap post : List Char}
    (hall : ∀ ch ∈ cap, ¬ ch = ';' ∧ jsLineTerm ch = false) :
    takeToSemi (cap ++ ';' :: post) = some cap := by
  induction cap with
  | nil => simp [takeToSemi]
  | cons c rest ih =>
    have hc := hall c (by simp)
    have hrest : ∀ ch ∈ rest, ¬ ch = ';' ∧ jsLineTerm ch = false := by
      intro ch hch
      exact hall ch (by simp [hch])
    have hstep : takeToSemi (c :: (rest ++ ';' :: post)) =
        (takeToSemi (rest ++ ';' :: post)).map fun cp => c :: cp := by
      simp [takeToSemi, hc.1, hc.2]
    rw [List.cons_append, hstep, ih hrest]
    rfl

theorem regexFirst_sound {l cap : List Char} (h : regexFirst l = some cap) :
    tokenAt l cap := by
  induction l with
  | nil => simp [regexFirst] at h
  | cons c rest ih =>
    by_cases hc : c = ':'
    · subst hc
      cases hts : takeToSemi rest with
      | some cap' =>
        have h2 : some cap' = some cap := by
          simpa [regexFirst, hts] using h
        cases h2
        obtain ⟨⟨post, hpost⟩, hall⟩ := takeToSemi_sound hts
        exact ⟨⟨[], post, by simp [hpost]⟩, hall⟩
      | none =>
        have h2 : regexFirst rest = some cap := by
          simpa [regexFirst, hts] using h
        obtain ⟨⟨pre, post, hpre⟩, hall⟩ := ih h2
        exact ⟨⟨':' :: pre, post, by simp [hpre]⟩, hall⟩
    · have h2 : regexFirst rest = some cap := by
        simpa [regexFirst, hc] using h
      obtain ⟨⟨pre, post, hpre⟩, hall⟩ := ih h2
      exact ⟨⟨c :: pre, post, by simp [hpre]⟩, hall⟩

theorem regexFirst_exists_of_token {pre cap post : List Char}
    (hall : ∀ ch ∈ cap, ¬ ch = ';' ∧ jsLineTerm ch = false) :
    ∃ cap', regexFirst (pre ++ ':' :: (cap ++ ';' :: post)) = some cap' := by
  induction pre with
  | nil =>
    refine ⟨cap, ?_⟩
    simp [regexFirst, takeToSemi_complete hall]
  | cons p pre' ih =>
    obtain ⟨cap', hcap'⟩ := ih
    by_cases hp : p = ':'
    · subst hp
      cases hts : takeToSemi (pre' ++ ':' :: (cap ++ ';' :: post)) with
      | some c2 => exact ⟨c2, by simp [regexFirst, hts]⟩
      | none => exact ⟨cap', by simp [regexFirst, hts, hcap']⟩
    · exact ⟨cap', by simp [regexFirst, hp, hcap']⟩

theorem regexFirst_complete {l cap : List Char} (h : tokenAt l cap) :
    ∃ cap', regexFirst l = some cap' := by
  obtain ⟨⟨pre, post, hpre⟩, hall⟩ := h
  subst hpre
  exact regexFirst_exists_of_token hall

/-- C9 (amended): `parseDataUrl` is total on strings; the media type is the
capture of the first `:<type>;` token found in the part of the input before
the first comma — the whole input when no comma is present — and the
fallback `image/png` is produced exactly when no such token exists there.
The comma shape is not required for extraction. -/
theorem parseDataUrl_mime_characterisation (s : String) :
    ((∀ cap, ¬ tokenAt (headerOf s) cap) ∧ parseDataUrlMime s = "image/png") ∨
    (∃ cap, tokenAt (headerOf s) cap ∧ parseDataUrlMime s = String.mk cap) := by
  cases h : regexFirst (headerOf s) with
  | none =>
    left
    refine ⟨?_, ?_⟩
    · intro cap hc
      obtain ⟨cap', hcap'⟩ := regexFirst_complete hc
      rw [h] at hcap'
      cases hcap'
    · unfold parseDataUrlMime
      rw [h]
  | some cap =>
    right
    refine ⟨cap, regexFirst_sound h, ?_⟩
    unfold parseDataUrlMime
    rw [h]

/-- C9 counterexample: on the comma-less input `"data:image/jpeg;base64"`
the code extracts `"image/jpeg"`, while the claim demands the `"image/png"`
fallback for inputs without the `<header>,<payload>` shape. -/
theorem parseDataUrl_mime_counterexample :
    parseDataUrlMime "data:image/jpeg;base64" = "image/jpeg" ∧
    parseDataUrlMimeClaim "data:image/jpeg;base64" = "image/png" ∧
    parseDataUrlMime "data:image/jpeg;base64" ≠
      parseDataUrlMimeClaim "data:image/jpeg;base64" := by
  refine ⟨by decide, by decide, by decide⟩

/-- The request dispatched by `handleGenerate` once both preconditions pass. -/
theorem handleGenerate_request (stylePrefixes : String → String) (s : AppState)
    (count : Nat) (hasKey aistudioOk : Bool) (backend : Except String (List String))
    (hp : ¬ ((strTrim s.prompt == "") = true))
    (hk : ¬ ((!hasKey && s.imageModel == "gemini-3-pro-image-preview" &&
      !aistudioOk) = true)) :
    (handleGenerate stylePrefixes s count hasKey aistudioOk backend).request =
      (if s.referenceImages.length > 0 then
          Except.ok (generateFromImageAndText s.prompt s.referenceImages)
        else
          generateFromText stylePrefixes s.prompt
            (if s.referenceImages.length > 0 || isGeminiImageModel s.imageModel then 1
              else count)
            s.aspectRatio s.style s.imageModel).toOption := by
  unfold handleGenerate
  rw [if_neg hp, if_neg hk]

/-- The settled `lastError` of `handleGenerate` once both preconditions
pass: a dispatch-time rejection or a backend rejection goes through
`generateErrorFold`, success clears the error. -/
theorem handleGenerate_settled_error (stylePrefixes : String → String) (s : AppState)
    (count : Nat) (hasKey aistudioOk : Bool) (backend : Except String (List String))
    (hp : ¬ ((strTrim s.prompt == "") = true))
    (hk : ¬ ((!hasKey && s.imageModel == "gemini-3-pro-image-preview" &&
      !aistudioOk) = true)) :
    (handleGenerate stylePrefixes s count hasKey aistudioOk backend).finalState.error =
      (match (if s.referenceImages.length > 0 then
            Except.ok (generateFromImageAndText s.prompt s.referenceImages)
          else
            generateFromText stylePrefixes s.prompt
              (if s.referenceImages.length > 0 || isGeminiImageModel s.imageModel
                then 1 else count)
              s.aspectRatio s.style s.imageModel), backend with
        | Except.error m, _ => some (generateErrorFold m)
        | Except.ok _, Except.error m => some (generateErrorFold m)
        | Except.ok _, Except.ok _ => none) := by
  unfold handleGenerate
  rw [if_neg hp, if_neg hk]
  simp only []
  cases hreq : (if s.referenceImages.length > 0 then
      Except.ok (generateFromImageAndText s.prompt s.referenceImages)
    else
      generateFromText stylePrefixes s.prompt
        (if s.referenceImages.length > 0 || isGeminiImageModel s.imageModel
          then 1 else count)
        s.aspectRatio s.style s.imageModel) with
  | ok r => cases backend <;> rfl
  | error m => cases backend <;> rfl

/-- C2: whenever `handleGenerate` dispatches a request, the requested image
count is 1 if any reference image is attached or the selected image model is
multimodal; a batch of 4 is requested exactly for the dedicated batch model
with no reference images and requested count 4. -/
theorem handleGenerate_count_policy (stylePrefixes : String → String) (s : AppState)
    (count : Nat) (hasKey aistudioOk : Bool) (backend : Except String (List String))
    (hcount : count = 1 ∨ count = 4) (r : GenRequest)
    (hr : (handleGenerate stylePrefixes s count hasKey aistudioOk backend).request =
      some r) :
    ((s.referenceImages ≠ [] ∨ isGeminiImageModel s.imageModel = true) →
      r.requestedImages = 1) ∧
    (r.requestedImages = 4 →
      s.imageModel = "imagen-4.0-generate-001" ∧ s.referenceImages = [] ∧ count = 4) ∧
    (s.imageModel = "imagen-4.0-generate-001" → s.referenceImages = [] → count = 4 →
      r.requestedImages = 4) := by
  by_cases h1 : (strTrim s.prompt == "") = true
  · simp [handleGenerate, h1] at hr
  · by_cases h2 : (!hasKey && s.imageModel == "gemini-3-pro-image-preview" &&
        !aistudioOk) = true
    · simp [handleGenerate, h1, h2] at hr
    · rw [handleGenerate_request stylePrefixes s count hasKey aistudioOk backend h1 h2]
        at hr
      by_cases h3 : s.referenceImages.length > 0
      · have hne : s.referenceImages ≠ [] := by
          intro hnil
          rw [hnil] at h3
          simp at h3
        rw [if_pos h3] at hr
        have hreq : r = generateFromImageAndText s.prompt s.referenceImages := by
          simpa [Except.toOption] using hr.symm
        subst hreq
        refine ⟨fun _ => rfl, fun h4 => ?_, fun _ hnil _ => absurd hnil hne⟩
        simp [generateFromImageAndText, GenRequest.requestedImages] at h4
      · have hnil : s.referenceImages = [] := by
          cases hl : s.referenceImages with
          | nil => rfl
          | cons a l => rw [hl] at h3; simp at h3
        rw [if_neg h3] at hr
        have heff : (if s.referenceImages.length > 0 ||
            isGeminiImageModel s.imageModel then 1 else count) =
            (if isGeminiImageModel s.imageModel = true then 1 else count) := by
          by_cases hg : isGeminiImageModel s.imageModel = true
          · rw [if_pos hg]
            rw [if_pos]
            simp [hg]
          · rw [if_neg hg]
            rw [if_neg]
            simp [h3, hg]
        rw [heff] at hr
        by_cases h4 : (s.imageModel == "imagen-4.0-generate-001") = true
        · have hmodel : s.imageModel = "imagen-4.0-generate-001" := by
            simpa using h4
          have hgem : isGeminiImageModel s.imageModel = false := by
            rw [hmodel]
            decide
          rw [hgem] at hr
          simp only [Bool.false_eq_true, if_false] at hr
          unfold generateFromText at hr
          rw [if_pos h4] at hr
          have hreq : r = GenRequest.imagenBatch
              (stylePrefixes s.style ++ " " ++ s.prompt) count s.aspectRatio := by
            simpa [Except.toOption] using hr.symm
          subst hreq
          refine ⟨fun h5 => ?_, fun h5 => ?_, fun _ _ hc => ?_⟩
          · rcases h5 with h5 | h5
            · exact absurd hnil h5
            · rw [hgem] at h5
              cases h5
          · refine ⟨hmodel, hnil, ?_⟩
            simpa [GenRequest.requestedImages] using h5
          · simp only [GenRequest.requestedImages]
            exact hc
        · have hmodelne : ¬ s.imageModel = "imagen-4.0-generate-001" := by
            intro heq
            rw [heq] at h4
            simp at h4
          unfold generateFromText at hr
          rw [if_neg h4] at hr
          by_cases h5 : (strIncludes s.imageModel "gemini" ||
              strIncludes s.imageModel "flash" || strIncludes s.imageModel "pro") = true
          · rw [if_pos h5] at hr
            have hreq : r = GenRequest.geminiImage
                (stylePrefixes s.style ++ " " ++ s.prompt) s.aspectRatio := by
              simpa [Except.toOption] using hr.symm
            subst hreq
            exact ⟨fun _ => rfl, fun h6 => by
              simp [GenRequest.requestedImages] at h6,
              fun hm _ _ => absurd hm hmodelne⟩
          · rw [if_neg h5] at hr
            simp [Except.toOption] at hr

/-- C2 witness: with one reference image attached a count-4 request still
dispatches a single-image multimodal call. -/
theorem handleGenerate_count_policy_witness :
    ((handleGenerate (fun _ => "") sampleState 4 true true (Except.ok [])).request =
      some (GenRequest.imageAndText "a cat" ["data:image/png;base64,AAA"])) ∧
    GenRequest.requestedImages
      (GenRequest.imageAndText "a cat" ["data:image/png;base64,AAA"]) = 1 := by
  constructor
  · decide
  · exact (handleGenerate_count_policy (fun _ => "") sampleState 4 true true
      (Except.ok []) (Or.inr rfl) _ (by decide)).1 (Or.inl (by decide))

/-- C4 counterexample: `handleDescribe` folds a backend rejection whose
message contains `API_KEY_INVALID` into `lastError` verbatim — the
credential-specific message is not produced outside `handleGenerate`. -/
theorem describe_credential_error_not_mapped :
    strIncludes "API_KEY_INVALID: API key not valid." "API_KEY_INVALID" = true ∧
    (handleDescribe sampleState 0
        (Except.error "API_KEY_INVALID: API key not valid.")).finalState.error =
      some "API_KEY_INVALID: API key not valid." ∧
    ¬ (handleDescribe sampleState 0
        (Except.error "API_KEY_INVALID: API key not valid.")).finalState.error =
      some invalidKeyMessage := by
  refine ⟨by decide, by decide, by decide⟩

/-- C4 (amended): only the generate handler classifies credential errors —
whenever `handleGenerate` dispatched a call that rejects with a message
containing `API_KEY_INVALID` or `Requested entity was not found`, its error
fold stores the distinguished credential message, while every other handler
that reached its dispatch (describe, caption, remove-text, expand, their
Ref1 variants, enhance and concept) stores the raw backend message. -/
theorem generate_credential_error_mapped (msg : String) (s : AppState) (i : Nat)
    (img ratio : String)
    (stylePrefixes : String → String) (count : Nat) (hasKey aistudioOk : Bool)
    (hmsg : strIncludes msg "API_KEY_INVALID" = true ∨
      strIncludes msg "Requested entity was not found" = true)
    (hq : (handleGenerate stylePrefixes s count hasKey aistudioOk
      (Except.error msg)).request.isSome = true) :
    (handleGenerate stylePrefixes s count hasKey aistudioOk
      (Except.error msg)).finalState.error = some invalidKeyMessage ∧
    (handleDescribe s i (Except.error msg)).finalState.error = some msg ∧
    (handleCaption s img i (Except.error msg)).finalState.error = some msg ∧
    (handleRemoveText s img i (Except.error msg)).finalState.error = some msg ∧
    (handleExpandImage s i ratio (Except.error msg)).finalState.error = some msg ∧
    ((handleDescribeRef1 s (Except.error msg)).tagSet = true →
      (handleDescribeRef1 s (Except.error msg)).finalState.error = some msg) ∧
    ((handleCaptionRef1 s (Except.error msg)).tagSet = true →
      (handleCaptionRef1 s (Except.error msg)).finalState.error = some msg) ∧
    ((handleRemoveTextRef1 s (Except.error msg)).tagSet = true →
      (handleRemoveTextRef1 s (Except.error msg)).finalState.error = some msg) ∧
    ((handleExpandRef1 s ratio (Except.error msg)).tagSet = true →
      (handleExpandRef1 s ratio (Except.error msg)).finalState.error = some msg) ∧
    ((handleEnhancePrompt s (Except.error msg)).tagSet = true →
      (handleEnhancePrompt s (Except.error msg)).finalState.error = some msg) ∧
    ((handleConcept s (Except.error msg)).tagSet = true →
      (handleConcept s (Except.error msg)).finalState.error = some msg) := by
  have hfold : generateErrorFold msg = invalidKeyMessage := by
    rcases hmsg with h | h <;> simp [generateErrorFold, h]
  refine ⟨?_, ?_, ?_, ?_, ?_, ?_, ?_, ?_, ?_, ?_, ?_⟩
  · by_cases h1 : (strTrim s.prompt == "") = true
    · simp [handleGenerate, h1] at hq
    · by_cases h2 : (!hasKey && s.imageModel == "gemini-3-pro-image-preview" &&
          !aistudioOk) = true
      · simp [handleGenerate, h1, h2] at hq
      · rw [handleGenerate_settled_error stylePrefixes s count hasKey aistudioOk
          (Except.error msg) h1 h2]
        rw [handleGenerate_request stylePrefixes s count hasKey aistudioOk
          (Except.error msg) h1 h2] at hq
        by_cases h3 : s.referenceImages.length > 0
        · rw [if_pos h3]
          simp [hfold]
        · rw [if_neg h3] at hq ⊢
          cases hreq : generateFromText stylePrefixes s.prompt
              (if s.referenceImages.length > 0 || isGeminiImageModel s.imageModel
                then 1 else count) s.aspectRatio s.style s.imageModel with
          | ok r =>
            simp [hfold]
          | error m =>
            rw [hreq] at hq
            simp [Except.toOption] at hq
  · simp [handleDescribe]
  · simp [handleCaption]
  · simp [handleRemoveText]
  · simp [handleExpandImage]
  · by_cases hz : s.referenceImages.length = 0
    · simp [handleDescribeRef1, hz]
    · simp [handleDescribeRef1, hz]
  · by_cases hz : s.referenceImages.length = 0
    · simp [handleCaptionRef1, hz]
    · simp [handleCaptionRef1, hz]
  · by_cases hz : s.referenceImages.length = 0
    · simp [handleRemoveTextRef1, hz]
    · simp [handleRemoveTextRef1, hz]
  · by_cases hz : s.referenceImages.length = 0
    · simp [handleExpandRef1, hz]
    · simp [handleExpandRef1, hz]
  · by_cases hz : (strTrim s.prompt == "") = true
    · simp [handleEnhancePrompt, hz]
    · simp [handleEnhancePrompt, hz]
  · by_cases hz : (strTrim s.prompt == "") = true
    · simp [handleConcept, hz]
    · simp [handleConcept, hz]

/-- C4 witness: a rejected generate call with an `API_KEY_INVALID` message
settles with the distinguished credential message, while rejected describe,
caption and enhance calls on the same state keep the raw message. -/
theorem generate_credential_error_mapped_witness :
    (handleGenerate (fun _ => "") sampleState 1 true true
      (Except.error "API_KEY_INVALID")).finalState.error =
        some invalidKeyMessage ∧
    (handleDescribe sampleState 1
      (Except.error "API_KEY_INVALID")).finalState.error =
        some "API_KEY_INVALID" ∧
    (handleCaption sampleState "img" 1
      (Except.error "API_KEY_INVALID")).finalState.error =
        some "API_KEY_INVALID" ∧
    (handleEnhancePrompt sampleState
      (Except.error "API_KEY_INVALID")).finalState.error =
        some "API_KEY_INVALID" := by
  have h := generate_credential_error_mapped "API_KEY_INVALID" sampleState 1
    "img" "1:1" (fun _ => "") 1 true true (Or.inl (by decide)) (by decide)
  exact ⟨h.1, h.2.1, h.2.2.1, h.2.2.2.2.2.2.2.2.2.1 (by decide)⟩

/-- C5: every handler that mutates the reference-image list preserves
`length ≤ 4`, and with the list already at 4 entries an added image is
discarded: the list is unchanged and the capacity message is stored. -/
theorem referenceImages_capacity (s : AppState) (img ft : String) (i : Nat)
    (rd : Except String String) (bs : Except String String)
    (bl : Except String (List String))
    (h : s.referenceImages.length ≤ 4) :
    (handleSetReference s img).referenceImages.length ≤ 4 ∧
    (handleRemoveReference s i).referenceImages.length ≤ 4 ∧
    (handleUploadReference s ft rd).referenceImages.length ≤ 4 ∧
    (handleCaption s img i bs).finalState.referenceImages.length ≤ 4 ∧
    (handleRemoveText s img i bl).finalState.referenceImages.length ≤ 4 ∧
    (handleCaptionRef1 s bs).finalState.referenceImages.length ≤ 4 ∧
    (handleRemoveTextRef1 s bl).finalState.referenceImages.length ≤ 4 ∧
    (s.referenceImages.length = 4 →
      (handleSetReference s img).referenceImages = s.referenceImages ∧
      (handleSetReference s img).error =
        some "You can only have a maximum of 4 reference images.") := by
  have hset : ∀ t : String, (handleSetReference s t).referenceImages.length ≤ 4 := by
    intro t
    by_cases hlt : s.referenceImages.length < 4
    · simp only [handleSetReference, if_pos hlt, List.length_append,
        List.length_singleton]
      omega
    · simp only [handleSetReference, if_neg hlt]
      exact h
  refine ⟨hset img, ?_, ?_, ?_, ?_, ?_, ?_, ?_⟩
  · simp only [handleRemoveReference]
    calc ((s.referenceImages.enum.filter fun p => ¬ p.1 = i).map fun p => p.2).length
        = (s.referenceImages.enum.filter fun p => ¬ p.1 = i).length :=
          List.length_map _ _
      _ ≤ s.referenceImages.enum.length := List.length_filter_le _ _
      _ = s.referenceImages.length := List.enum_length
      _ ≤ 4 := h
  · unfold handleUploadReference
    by_cases hft : (!(strStartsWith ft "image/")) = true
    · rw [if_pos hft]
      exact h
    · rw [if_neg hft]
      cases rd with
      | ok b => exact hset b
      | error m => exact h
  · cases bs <;> simp [handleCaption, h]
  · cases bl <;> simp [handleRemoveText, h]
  · by_cases hz : s.referenceImages.length = 0
    · simp [handleCaptionRef1, hz, h]
    · cases bs <;> simp [handleCaptionRef1, hz, h]
  · by_cases hz : s.referenceImages.length = 0
    · simp [handleRemoveTextRef1, hz, h]
    · cases bl <;> simp [handleRemoveTextRef1, hz, h]
  · intro h4
    have hnlt : ¬ s.referenceImages.length < 4 := by omega
    constructor
    · simp [handleSetReference, hnlt]
    · simp [handleSetReference, hnlt]

/-- C5 witness: at a 4-entry reference list the 5th add is rejected. -/
theorem referenceImages_capacity_witness :
    (handleSetReference
        { sampleState with referenceImages := ["a", "b", "c", "d"] }
        "e").referenceImages = ["a", "b", "c", "d"] ∧
    (handleSetReference
        { sampleState with referenceImages := ["a", "b", "c", "d"] }
        "e").error = some "You can only have a maximum of 4 reference images." :=
  (referenceImages_capacity
    { sampleState with referenceImages := ["a", "b", "c", "d"] }
    "e" "image/png" 0 (Except.ok "x") (Except.ok "x") (Except.ok [])
    (by decide)).2.2.2.2.2.2.2 (by decide)

/-- C6: when a precondition fails — blank prompt for enhance, concept and
generate; empty reference list for the describe/caption/remove-text/expand
prompt actions — the handler makes no backend call, sets no in-flight tag,
and the only state change is the specific message stored in `lastError`. -/
theorem precondition_failure_no_dispatch (s : AppState)
    (stylePrefixes : String → String) (ratio : String) (count : Nat)
    (hasKey aistudioOk : Bool)
    (bs : Except String String) (bl : Except String (List String))
    (hp : strTrim s.prompt = "") (hr : s.referenceImages = []) :
    handleEnhancePrompt s bs =
      { finalState := { s with error := some "Prompt is empty, nothing to enhance." }
        networkCalls := 0, tagSet := false } ∧
    handleConcept s bs =
      { finalState := { s with error := some "Prompt is empty, cannot generate concept." }
        networkCalls := 0, tagSet := false } ∧
    handleDescribeRef1 s bs =
      { finalState := { s with error := some "No reference image available to describe." }
        networkCalls := 0, tagSet := false } ∧
    handleCaptionRef1 s bs =
      { finalState := { s with error := some "No reference image available to caption." }
        networkCalls := 0, tagSet := false } ∧
    handleRemoveTextRef1 s bl =
      { finalState := { s with error := some "No reference image available to process." }
        networkCalls := 0, tagSet := false } ∧
    handleExpandRef1 s ratio bl =
      { finalState := { s with error := some "No reference image available to expand." }
        networkCalls := 0, tagSet := false } ∧
    handleGenerate stylePrefixes s count hasKey aistudioOk bl =
      { finalState := { s with error := some "Please enter a prompt." }
        request := none, tagSet := false } := by
  refine ⟨?_, ?_, ?_, ?_, ?_, ?_, ?_⟩
  · simp [handleEnhancePrompt, hp]
  · simp [handleConcept, hp]
  · simp [handleDescribeRef1, hr]
  · simp [handleCaptionRef1, hr]
  · simp [handleRemoveTextRef1, hr]
  · simp [handleExpandRef1, hr]
  · simp [handleGenerate, hp]

/-- C6 witness: on a blank-prompt, empty-reference state the enhance and
generate handlers fail fast with only `lastError` set. -/
theorem precondition_failure_no_dispatch_witness :
    strTrim blankState.prompt = "" ∧ blankState.referenceImages = [] ∧
    handleEnhancePrompt blankState (Except.ok "vivid") =
      { finalState :=
          { blankState with error := some "Prompt is empty, nothing to enhance." }
        networkCalls := 0, tagSet := false } ∧
    handleGenerate (fun _ => "") blankState 4 true true (Except.ok []) =
      { finalState := { blankState with error := some "Please enter a prompt." }
        request := none, tagSet := false } := by
  refine ⟨by decide, by decide, ?_, ?_⟩
  · exact (precondition_failure_no_dispatch blankState (fun _ => "") "1:1" 4 true true
      (Except.ok "vivid") (Except.ok []) (by decide) (by decide)).1
  · exact (precondition_failure_no_dispatch blankState (fun _ => "") "1:1" 4 true true
      (Except.ok "vivid") (Except.ok []) (by decide) (by decide)).2.2.2.2.2.2

/-- C7: every handler that marked itself in-flight clears its tag on
settlement, for resolved and rejected backend outcomes alike: the per-card
actions clear `processingAction`, the prompt actions clear
`promptActionLoading`, and generate clears the loading flag and count. -/
theorem inflight_tag_cleared_on_settle (s : AppState) (img ratio : String) (i : Nat)
    (stylePrefixes : String → String) (count : Nat) (hasKey aistudioOk : Bool)
    (bs : Except String String) (bl : Except String (List String)) :
    (handleDescribe s i bs).finalState.processingAction = none ∧
    (handleCaption s img i bs).finalState.processingAction = none ∧
    (handleRemoveText s img i bl).finalState.processingAction = none ∧
    (handleExpandImage s i ratio bl).finalState.processingAction = none ∧
    ((handleDescribeRef1 s bs).tagSet = true →
      (handleDescribeRef1 s bs).finalState.promptActionLoading = none) ∧
    ((handleCaptionRef1 s bs).tagSet = true →
      (handleCaptionRef1 s bs).finalState.promptActionLoading = none) ∧
    ((handleRemoveTextRef1 s bl).tagSet = true →
      (handleRemoveTextRef1 s bl).finalState.promptActionLoading = none) ∧
    ((handleExpandRef1 s ratio bl).tagSet = true →
      (handleExpandRef1 s ratio bl).finalState.promptActionLoading = none) ∧
    ((handleEnhancePrompt s bs).tagSet = true →
      (handleEnhancePrompt s bs).finalState.promptActionLoading = none) ∧
    ((handleConcept s bs).tagSet = true →
      (handleConcept s bs).finalState.promptActionLoading = none) ∧
    ((handleGenerate stylePrefixes s count hasKey aistudioOk bl).tagSet = true →
      (handleGenerate stylePrefixes s count hasKey aistudioOk bl).finalState.loading =
          false ∧
        (handleGenerate stylePrefixes s count hasKey aistudioOk
          bl).finalState.loadingCount = 0) := by
  refine ⟨?_, ?_, ?_, ?_, ?_, ?_, ?_, ?_, ?_, ?_, ?_⟩
  · cases bs <;> rfl
  · cases bs <;> rfl
  · cases bl <;> rfl
  · cases bl <;> rfl
  · by_cases hz : s.referenceImages.length = 0
    · simp [handleDescribeRef1, hz]
    · cases bs <;> simp [handleDescribeRef1, hz]
  · by_cases hz : s.referenceImages.length = 0
    · simp [handleCaptionRef1, hz]
    · cases bs <;> simp [handleCaptionRef1, hz]
  · by_cases hz : s.referenceImages.length = 0
    · simp [handleRemoveTextRef1, hz]
    · cases bl <;> simp [handleRemoveTextRef1, hz]
  · by_cases hz : s.referenceImages.length = 0
    · simp [handleExpandRef1, hz]
    · cases bl <;> simp [handleExpandRef1, hz]
  · by_cases hz : (strTrim s.prompt == "") = true
    · simp [handleEnhancePrompt, hz]
    · cases bs <;> simp [handleEnhancePrompt, hz]
  · by_cases hz : (strTrim s.prompt == "") = true
    · simp [handleConcept, hz]
    · cases bs <;> simp [handleConcept, hz]
  · by_cases h1 : (strTrim s.prompt == "") = true
    · simp [handleGenerate, h1]
    · by_cases h2 : (!hasKey && s.imageModel == "gemini-3-pro-image-preview" &&
          !aistudioOk) = true
      · simp [handleGenerate, h1, h2]
      · intro _
        unfold handleGenerate
        rw [if_neg h1, if_neg h2]
        simp only []
        cases hreq : (if s.referenceImages.length > 0 then
            Except.ok (generateFromImageAndText s.prompt s.referenceImages)
          else
            generateFromText stylePrefixes s.prompt
              (if s.referenceImages.length > 0 || isGeminiImageModel s.imageModel
                then 1 else count)
              s.aspectRatio s.style s.imageModel) with
        | ok r => cases bl <;> exact ⟨by trivial, by trivial⟩
        | error m => cases bl <;> exact ⟨by trivial, by trivial⟩


/-- C7 witness: a rejected describe call and a resolved expand call both end
with their tags cleared. -/
theorem inflight_tag_cleared_on_settle_witness :
    (handleDescribe sampleState 2
      (Except.error "boom")).finalState.processingAction = none ∧
    (handleExpandImage sampleState 0 "1:1"
      (Except.ok ["img"])).finalState.processingAction = none := by
  refine ⟨?_, ?_⟩
  · exact (inflight_tag_cleared_on_settle sampleState "x" "1:1" 2 (fun _ => "") 1
      true true (Except.error "boom") (Except.ok ["img"])).1
  · exact (inflight_tag_cleared_on_settle sampleState "x" "1:1" 0 (fun _ => "") 1
      true true (Except.error "boom") (Except.ok ["img"])).2.2.2.1

/-- C10 (implicit): after an expand operation settles — success or failure —
the session aspect ratio equals the constant `16:9`, whatever value it held
before the operation and whatever target ratio was requested; the previous
value is not restored. -/
theorem expand_resets_aspect_ratio (s : AppState) (i : Nat) (ratio : String)
    (bl : Except String (List String)) (h : s.referenceImages ≠ []) :
    (handleExpandImage s i ratio bl).finalState.aspectRatio = "16:9" ∧
    (handleExpandRef1 s ratio bl).finalState.aspectRatio = "16:9" := by
  have hz : ¬ s.referenceImages.length = 0 := by
    simpa [List.length_eq_zero] using h
  constructor
  · cases bl <;> rfl
  · cases bl <;> simp [handleExpandRef1, hz]

/-- C10 witness: expanding to `21:9` from a state whose selector held `16:9`
still settles at `16:9`, for resolved and rejected outcomes. -/
theorem expand_resets_aspect_ratio_witness :
    (handleExpandImage { sampleState with aspectRatio := "4:3" } 0 "21:9"
      (Except.ok ["img"])).finalState.aspectRatio = "16:9" ∧
    (handleExpandRef1 { sampleState with aspectRatio := "4:3" } "21:9"
      (Except.error "boom")).finalState.aspectRatio = "16:9" := by
  refine ⟨?_, ?_⟩
  · exact (expand_resets_aspect_ratio { sampleState with aspectRatio := "4:3" } 0
      "21:9" (Except.ok ["img"]) (by decide)).1
  · exact (expand_resets_aspect_ratio { sampleState with aspectRatio := "4:3" } 0
      "21:9" (Except.error "boom") (by decide)).2

/-- C8: the caption-driven prompt template scans the generated caption for
characters in the Thai range `[ก-ฮ]`; with at least one such character the
template is instantiated with the `Thai text` wording, otherwise with the
generic `text` wording — both demanding the exact characters without
translation. -/
theorem caption_prompt_thai_detection (c : String) :
    ((∃ ch ∈ c.data, isThaiChar ch = true) →
      captionPrompt c =
        "Recreate the image in [ref-1], but add the following " ++ "Thai text" ++
          " as a caption: \"" ++ c ++ "\". The " ++ "Thai text" ++
          " should be elegantly placed in a suitable position, using a beautiful font with a color that is easily readable against the background. Do not obscure important details like faces or key subjects. The " ++
          "Thai text" ++
          " MUST be clear and readable, using the exact characters provided without translation.") ∧
    ((∀ ch ∈ c.data, isThaiChar ch = false) →
      captionPrompt c =
        "Recreate the image in [ref-1], but add the following " ++ "text" ++
          " as a caption: \"" ++ c ++ "\". The " ++ "text" ++
          " should be elegantly placed in a suitable position, using a beautiful font with a color that is easily readable against the background. Do not obscure important details like faces or key subjects. The " ++
          "text" ++
          " MUST be clear and readable, using the exact characters provided without translation.") := by
  constructor
  · intro h
    obtain ⟨ch, hch, hthai⟩ := h
    have hb : hasThai c = true := by
      unfold hasThai
      rw [List.any_eq_true]
      exact ⟨ch, hch, hthai⟩
    unfold captionPrompt
    rw [hb]
    simp only [if_true]
  · intro h
    have hb : hasThai c = false := by
      unfold hasThai
      rw [List.any_eq_false]
      intro ch hch
      simp [h ch hch]
    unfold captionPrompt
    rw [hb]
    simp only [Bool.false_eq_true, if_false]

/-- C8 witness: `สวัสดี` selects the Thai wording, `Hello world` the
generic one. -/
theorem caption_prompt_thai_detection_witness :
    hasThai "สวัสดี" = true ∧ hasThai "Hello world" = false ∧
    captionPrompt "สวัสดี" =
      "Recreate the image in [ref-1], but add the following " ++ "Thai text" ++
        " as a caption: \"" ++ "สวัสดี" ++ "\". The " ++ "Thai text" ++
        " should be elegantly placed in a suitable position, using a beautiful font with a color that is easily readable against the background. Do not obscure important details like faces or key subjects. The " ++
        "Thai text" ++
        " MUST be clear and readable, using the exact characters provided without translation." ∧
    captionPrompt "Hello world" =
      "Recreate the image in [ref-1], but add the following " ++ "text" ++
        " as a caption: \"" ++ "Hello world" ++ "\". The " ++ "text" ++
        " should be elegantly placed in a suitable position, using a beautiful font with a color that is easily readable against the background. Do not obscure important details like faces or key subjects. The " ++
        "text" ++
        " MUST be clear and readable, using the exact characters provided without translation." := by
  refine ⟨by decide, by decide, ?_, ?_⟩
  · exact (caption_prompt_thai_detection "สวัสดี").1 (by decide)
  · exact (caption_prompt_thai_detection "Hello world").2 (by decide)

set_option maxRecDepth 4096 in
/-- C3 (code bug): the user-set max caption length never reaches the
instruction text.  The per-image caption instruction is a fixed string with
no length hint, independent of the argument the App passes; the story
caption instruction hard-codes `Max 60 chars.` whatever the user set. -/
theorem caption_maxLength_not_embedded :
    (∀ n m : Nat, captionInstructionSent n = captionInstructionSent m) ∧
    captionInstructionSent 100 = suggestCaptionInstruction ∧
    strIncludes (captionInstructionSent 100) "100" = false ∧
    (∀ story lang : String, ∀ n m : Nat,
      storyCaptionPromptSent story lang n = storyCaptionPromptSent story lang m) ∧
    storyCaptionPromptSent "A fox." "Thai" 100 =
      "Summarize this story in ONE short sentence in Thai. Max 60 chars.\nStory: A fox." ∧
    strIncludes (storyCaptionPromptSent "A fox." "Thai" 100) "100" = false ∧
    strIncludes (storyCaptionPromptSent "A fox." "Thai" 100) "Max 60 chars" = true := by
  refine ⟨fun n m => rfl, rfl, by decide, fun story lang n m => rfl, by decide,
    by decide, by decide⟩

end ImageStory
